import Mathlib

/-!
Verification of the students/courses CRUD service.

The Python source (src/project/app) is shallowly embedded below:
* `models.py`  → `StudentRow`, `CourseRow`, `DB` (two tables plus the
  `student_course` association table, modelled as a list of id pairs);
* `crud.py`    → the functions in namespace `crud` (the SQLAlchemy session is
  explicit state passing; a successful `commit` returns the new `DB`, an
  `IntegrityError` at commit is an `Except.error` with the state rolled back);
* `main.py`    → the endpoint functions in namespace `api` (FastAPI `Query`
  validation becomes an explicit check before the crud call; `HTTPException`
  becomes an error result carrying the status code and detail string);
* the SQL `LIKE` operator used by `crud.get_students` / `crud.get_courses`
  → `likeMatch`, the standard semantics of `LIKE` with wildcards `%` and `_`.
-/

/-- A row of the `students` table (models.py `Student`):
surrogate id, name, unique email, age. -/
structure StudentRow where
  id : Nat
  name : String
  email : String
  age : Int
deriving Repr, DecidableEq

/-- A row of the `courses` table (models.py `Course`):
surrogate id, title, nullable description, credits. -/
structure CourseRow where
  id : Nat
  title : String
  description : Option String
  credits : Int
deriving Repr, DecidableEq

/-- The database state: the `students` and `courses` tables plus the
`student_course` association table as a list of (student_id, course_id). -/
structure DB where
  students : List StudentRow
  courses : List CourseRow
  enrollments : List (Nat × Nat)
deriving Repr, DecidableEq

/-- The `StudentCreate` request schema (schemas.py): name, email, age. -/
structure StudentCreate where
  name : String
  email : String
  age : Int
deriving Repr, DecidableEq

/-- `db.get(models.Student, student_id)`: primary-key lookup. -/
def findStudent (db : DB) (sid : Nat) : Option StudentRow :=
  db.students.find? (fun s => s.id == sid)

/-- `db.get(models.Course, course_id)`: primary-key lookup. -/
def findCourse (db : DB) (cid : Nat) : Option CourseRow :=
  db.courses.find? (fun c => c.id == cid)

/-- `student.courses` relationship as ids: the courses the student is
enrolled in, read off the association table. -/
def studentCourseIds (db : DB) (sid : Nat) : List Nat :=
  (db.enrollments.filter (fun e => decide (e.1 = sid))).map (fun e => e.2)

/-- Whether some stored student already has the given email (the
`unique=True` constraint on `students.email` checked at commit time). -/
def emailTaken (db : DB) (email : String) : Bool :=
  db.students.any (fun s => s.email == email)

/-- Lexicographic comparison of char lists (code-point order, as Python
string comparison). -/
def charListLe : List Char → List Char → Bool
  | [], _ => true
  | _ :: _, [] => false
  | a :: as, b :: bs => if a = b then charListLe as bs else decide (a < b)

/-- Python `a <= b` on strings. -/
def strLe (a b : String) : Bool := charListLe a.data b.data

/-- Insert into a sorted list (helper of `sortBy`). -/
def insertSorted (le : α → α → Bool) (a : α) : List α → List α
  | [] => [a]
  | b :: l => if le a b then a :: b :: l else b :: insertSorted le a l

/-- Insertion sort with a boolean comparison: the model of Python `sorted`
and of SQL `ORDER BY ... ASC`. -/
def sortBy (le : α → α → Bool) : List α → List α
  | [] => []
  | a :: l => insertSorted le a (sortBy le l)

/-- Python `sorted(set(l))` over strings: deduplicate, then sort ascending. -/
def sortedSet (l : List String) : List String :=
  sortBy strLe l.dedup

/-- The lowercased characters of a string: Python `s.lower()` / SQL
`lower(s)` at the character level. -/
def lowerChars (s : String) : List Char :=
  s.data.map Char.toLower

/-- Semantics of the SQL `LIKE` operator: `%` matches any sequence of
characters, `_` matches exactly one character, anything else matches
itself. -/
def likeMatch : List Char → List Char → Bool
  | [], s => s.isEmpty
  | p :: ps, s =>
    if p = '%' then s.tails.any (fun t => likeMatch ps t)
    else
      match s with
      | [] => false
      | c :: t => if p = '_' then likeMatch ps t else (p = c) && likeMatch ps t

/-- The name/title filter of `crud.get_students` / `crud.get_courses`:
`func.lower(column).like(f"%{filter.lower()}%")`. -/
def nameFilterMatches (f v : String) : Bool :=
  likeMatch ('%' :: (lowerChars f ++ ['%'])) (lowerChars v)

/-- Modelled from the spec (for comparison with `nameFilterMatches`): the
filter as a plain case-insensitive substring test — the lowercased filter
occurs as a contiguous substring of the lowercased field value. -/
def specSubstrMatches (f v : String) : Bool :=
  (lowerChars v).tails.any (fun t => (lowerChars f).isPrefixOf t)

namespace crud

/-- crud.py `create_student`: insert the row and commit; a unique-email
violation raises `IntegrityError` after rollback (state unchanged). -/
def create_student (db : DB) (nextId : Nat) (data : StudentCreate) :
    Except String (DB × StudentRow) :=
  let student : StudentRow :=
    { id := nextId, name := data.name, email := data.email, age := data.age }
  if emailTaken db data.email then
    .error "IntegrityError"
  else
    .ok ({ db with students := db.students ++ [student] }, student)

/-- crud.py `bulk_create_students`, local `emails`: the candidate emails. -/
def payloadEmails (students : List StudentCreate) : List String :=
  students.map (fun s => s.email)

/-- crud.py `bulk_create_students`, local `dup_within`: the emails that
repeat within the payload (as the list of their occurrences; only
membership and the sorted deduplication are ever used). -/
def dup_within (students : List StudentCreate) : List String :=
  (payloadEmails students).filter (fun e => decide (1 < (payloadEmails students).count e))

/-- crud.py `bulk_create_students`, local `existing`: the stored emails
that also occur in the payload. -/
def existingEmails (db : DB) (students : List StudentCreate) : List String :=
  (db.students.map (fun s => s.email)).filter (fun e => decide (e ∈ payloadEmails students))

/-- crud.py `bulk_create_students`, local `errors`: one aggregate message
per nonempty conflict set, listing its emails sorted and deduplicated. -/
def bulkErrors (db : DB) (students : List StudentCreate) : List String :=
  (if (dup_within students).isEmpty then [] else
    ["Duplicate emails in payload: " ++
      String.intercalate ", " (sortedSet (dup_within students))]) ++
  (if (existingEmails db students).isEmpty then [] else
    ["Emails already exist: " ++
      String.intercalate ", " (sortedSet (existingEmails db students))])

/-- crud.py `bulk_create_students`, local `creatable`: the candidates whose
email is in neither conflict set. -/
def creatable (db : DB) (students : List StudentCreate) : List StudentCreate :=
  students.filter (fun s =>
    decide (s.email ∉ existingEmails db students ∧ s.email ∉ dup_within students))

/-- crud.py `bulk_create_students`, local `to_create`: the rows inserted by
the single batch commit, with ids assigned in order. -/
def toCreate (db : DB) (nextId : Nat) (students : List StudentCreate) : List StudentRow :=
  (creatable db students).enum.map (fun p =>
    ({ id := nextId + p.1, name := p.2.name, email := p.2.email, age := p.2.age } : StudentRow))

/-- crud.py `bulk_create_students`: detect intra-payload duplicate emails and
emails already stored, create only the non-conflicting candidates in one
batch, and report the two conflict sets as aggregate error strings. -/
def bulk_create_students (db : DB) (nextId : Nat) (students : List StudentCreate) :
    DB × List StudentRow × List String :=
  ({ db with students := db.students ++ toCreate db nextId students },
    toCreate db nextId students, bulkErrors db students)

/-- The rows selected by crud.py `get_students` before `offset`/`limit` are
applied: the optional name filter (`if name:` — skipped for `None` and for
the empty string), then the optional ascending sort (only for `order_by`
in `{"name", "age"}`). -/
def selectedStudents (db : DB) (name : Option String) (order_by : Option String) :
    List StudentRow :=
  let rows := match name with
    | none => db.students
    | some f => if f.isEmpty then db.students
                else db.students.filter (fun s => nameFilterMatches f s.name)
  if order_by = some "name" then sortBy (fun a b => strLe a.name b.name) rows
  else if order_by = some "age" then sortBy (fun a b => decide (a.age ≤ b.age)) rows
  else rows

/-- crud.py `get_students`: filter, order, then `offset(skip).limit(limit)`. -/
def get_students (db : DB) (skip limit : Nat) (name order_by : Option String) :
    List StudentRow :=
  ((selectedStudents db name order_by).drop skip).take limit

/-- crud.py `get_student`: lookup by id. -/
def get_student (db : DB) (sid : Nat) : Option StudentRow :=
  findStudent db sid

/-- The rows selected by crud.py `get_courses` before `offset`/`limit`:
the optional title filter (`if title:`), then the optional ascending sort
(only for `order_by = "title"`). -/
def selectedCourses (db : DB) (title : Option String) (order_by : Option String) :
    List CourseRow :=
  let rows := match title with
    | none => db.courses
    | some f => if f.isEmpty then db.courses
                else db.courses.filter (fun c => nameFilterMatches f c.title)
  if order_by = some "title" then sortBy (fun a b => strLe a.title b.title) rows
  else rows

/-- crud.py `get_courses`: filter, order, then `offset(skip).limit(limit)`. -/
def get_courses (db : DB) (skip limit : Nat) (title order_by : Option String) :
    List CourseRow :=
  ((selectedCourses db title order_by).drop skip).take limit

/-- crud.py `enroll_student_in_course`: both ids must resolve, an already
enrolled pair is returned unchanged, otherwise one association row is
appended. `None` (here `none`) signals not-found with the state untouched. -/
def enroll_student_in_course (db : DB) (sid cid : Nat) : Option (DB × StudentRow) :=
  match findStudent db sid, findCourse db cid with
  | some student, some _ =>
    if cid ∈ studentCourseIds db sid then
      some (db, student)
    else
      some ({ db with enrollments := db.enrollments ++ [(sid, cid)] }, student)
  | _, _ => none

/-- crud.py `unenroll_student_from_course`: both ids must resolve; an
enrolled pair has its association row removed, a non-enrolled pair is a
no-op returning the student. -/
def unenroll_student_from_course (db : DB) (sid cid : Nat) : Option (DB × StudentRow) :=
  match findStudent db sid, findCourse db cid with
  | some student, some _ =>
    if cid ∈ studentCourseIds db sid then
      some ({ db with enrollments :=
                db.enrollments.eraseP (fun e => e.1 == sid && e.2 == cid) }, student)
    else
      some (db, student)
  | _, _ => none

end crud

/-- The `CourseUpdate` request schema (schemas.py). Each field is doubly
optional: the outer `Option` is whether the caller provided the field at
all, the inner one is whether the provided JSON value was `null`.
Pydantic defaults an omitted optional field to `None`, so the Python code
observes `Option.join` of the wire value. -/
structure CourseUpdate where
  title : Option (Option String)
  description : Option (Option String)
  credits : Option (Option Int)
deriving Repr, DecidableEq

/-- The `StudentUpdate` request schema (schemas.py), doubly optional as in
`CourseUpdate`. -/
structure StudentUpdate where
  name : Option (Option String)
  email : Option (Option String)
  age : Option (Option Int)
deriving Repr, DecidableEq

namespace crud

/-- crud.py `update_course`: look up the course; for each payload field,
overwrite the row's field only when the value the code sees
(`data.field`, i.e. the joined wire value) `is not None`; commit the
updated row in place. -/
def update_course (db : DB) (cid : Nat) (data : CourseUpdate) :
    Option (DB × CourseRow) :=
  match findCourse db cid with
  | none => none
  | some course =>
    let c1 := match data.title.join with
      | some t => { course with title := t }
      | none => course
    let c2 := match data.description.join with
      | some d => { c1 with description := some d }
      | none => c1
    let c3 := match data.credits.join with
      | some cr => { c2 with credits := cr }
      | none => c2
    some ({ db with courses := db.courses.map (fun c => if c.id == cid then c3 else c) }, c3)

/-- crud.py `update_student`: as `update_course` on name/email/age, but the
commit can hit the unique-email constraint: if another stored student has
the resulting email, the commit raises `IntegrityError` and rolls back. -/
def update_student (db : DB) (sid : Nat) (data : StudentUpdate) :
    Except String (Option (DB × StudentRow)) :=
  match findStudent db sid with
  | none => .ok none
  | some student =>
    let s1 := match data.name.join with
      | some n => { student with name := n }
      | none => student
    let s2 := match data.email.join with
      | some e => { s1 with email := e }
      | none => s1
    let s3 := match data.age.join with
      | some a => { s2 with age := a }
      | none => s2
    if db.students.any (fun o => o.id != sid && o.email == s3.email) then
      .error "IntegrityError"
    else
      .ok (some ({ db with students := db.students.map (fun s => if s.id == sid then s3 else s) }, s3))

end crud

/-- An HTTP outcome: a body, or an error with status code and detail
string (`HTTPException`). -/
inductive ApiResult (α : Type) where
  | ok (body : α)
  | err (code : Nat) (detail : String)
deriving Repr, DecidableEq

/-- The outcome of the bulk endpoint, whose error detail is the list of
aggregate error strings. -/
inductive BulkResult where
  | ok (rows : List StudentRow)
  | conflict (errors : List String)
deriving Repr, DecidableEq

namespace api

/-- main.py `create_student` endpoint: `IntegrityError` from the crud call
becomes `409 "Email already exists"`; otherwise the created row. -/
def create_student (db : DB) (nextId : Nat) (data : StudentCreate) :
    DB × ApiResult StudentRow :=
  match crud.create_student db nextId data with
  | .error _ => (db, .err 409 "Email already exists")
  | .ok (db', st) => (db', .ok st)

/-- main.py `bulk_create_students` endpoint: `if errors and not created:`
raise `409` carrying the error strings, else return the created rows. -/
def bulk_create_students (db : DB) (nextId : Nat) (students : List StudentCreate) :
    DB × BulkResult :=
  let r := crud.bulk_create_students db nextId students
  if !r.2.2.isEmpty && r.2.1.isEmpty then (r.1, .conflict r.2.2)
  else (r.1, .ok r.2.1)

/-- main.py `list_students` endpoint: FastAPI validates
`skip ≥ 0`, `0 < limit ≤ 100` and the `order_by` pattern before the
handler (and hence before any storage access); then `crud.get_students`. -/
def list_students (db : DB) (skip limit : Int) (name order_by : Option String) :
    ApiResult (List StudentRow) :=
  if skip < 0 ∨ limit ≤ 0 ∨ 100 < limit then .err 422 "validation error"
  else if ¬ (order_by = none ∨ order_by = some "name" ∨ order_by = some "age") then
    .err 422 "validation error"
  else .ok (crud.get_students db skip.toNat limit.toNat name order_by)

/-- main.py `list_courses` endpoint, as `list_students`. -/
def list_courses (db : DB) (skip limit : Int) (title order_by : Option String) :
    ApiResult (List CourseRow) :=
  if skip < 0 ∨ limit ≤ 0 ∨ 100 < limit then .err 422 "validation error"
  else if ¬ (order_by = none ∨ order_by = some "title") then
    .err 422 "validation error"
  else .ok (crud.get_courses db skip.toNat limit.toNat title order_by)

/-- main.py `enroll` endpoint: a `None` from the crud call becomes
`404 "Student or course not found"` with the state untouched. -/
def enroll (db : DB) (sid cid : Nat) : DB × ApiResult StudentRow :=
  match crud.enroll_student_in_course db sid cid with
  | none => (db, .err 404 "Student or course not found")
  | some (db', st) => (db', .ok st)

/-- main.py `unenroll` endpoint: a `None` from the crud call becomes
`404 "Student or course not found"` with the state untouched. -/
def unenroll (db : DB) (sid cid : Nat) : DB × ApiResult StudentRow :=
  match crud.unenroll_student_from_course db sid cid with
  | none => (db, .err 404 "Student or course not found")
  | some (db', st) => (db', .ok st)

/-- main.py `update_course` endpoint: `None` becomes `404`. -/
def update_course (db : DB) (cid : Nat) (data : CourseUpdate) :
    DB × ApiResult CourseRow :=
  match crud.update_course db cid data with
  | none => (db, .err 404 "Course not found")
  | some (db', c) => (db', .ok c)

end api

/-! ## Helper lemmas -/

/-- `List.any` only depends on the pointwise behaviour of the predicate. -/
theorem anyCongr {α : Type} {l : List α} {f g : α → Bool} (h : ∀ x, f x = g x) :
    l.any f = l.any g := by
  induction l with
  | nil => rfl
  | cons a t ih => simp only [List.any_cons, h a, ih]

/-- Membership in a student's course list is membership of the pair in the
association table. -/
theorem mem_studentCourseIds (db : DB) (sid cid : Nat) :
    cid ∈ studentCourseIds db sid ↔ (sid, cid) ∈ db.enrollments := by
  simp only [studentCourseIds, List.mem_map, List.mem_filter, decide_eq_true_eq]
  constructor
  · rintro ⟨⟨a, b⟩, ⟨hmem, h1⟩, h2⟩
    simp only at h1 h2
    subst h1; subst h2
    exact hmem
  · intro h
    exact ⟨(sid, cid), ⟨h, rfl⟩, rfl⟩

/-- `emailTaken` decides whether some stored student has the email. -/
theorem emailTaken_iff (db : DB) (e : String) :
    emailTaken db e = true ↔ ∃ s ∈ db.students, s.email = e := by
  simp [emailTaken, List.any_eq_true]

/-- Deduplicating a nonempty constant list yields the singleton. -/
theorem dedup_const {l : List String} {a : String} (hne : l ≠ [])
    (hall : ∀ x ∈ l, x = a) : l.dedup = [a] := by
  induction l with
  | nil => exact absurd rfl hne
  | cons b t ih =>
    have hb : b = a := hall b (List.mem_cons_self b t)
    subst hb
    by_cases ht : t = []
    · subst ht; simp
    · have hall' : ∀ x ∈ t, x = b := fun x hx => hall x (List.mem_cons_of_mem b hx)
      have hmem : b ∈ t := by
        cases t with
        | nil => exact absurd rfl ht
        | cons c u =>
          have hc : c = b := hall' c (List.mem_cons_self c u)
          subst hc
          exact List.mem_cons_self c u
      rw [List.dedup_cons_of_mem hmem, ih ht hall']

/-- `sortedSet` of a nonempty constant list is the singleton. -/
theorem sortedSet_const {l : List String} {a : String} (hne : l ≠ [])
    (hall : ∀ x ∈ l, x = a) : sortedSet l = [a] := by
  unfold sortedSet
  rw [dedup_const hne hall]
  rfl

/-- Joining a one-element list is that element. -/
theorem intercalate_singleton (a : String) : String.intercalate ", " [a] = a := by
  simp [String.intercalate, String.intercalate.go]

/-- A leading `%` in a `LIKE` pattern matches any split: the rest of the
pattern must match some suffix. -/
theorem likeMatch_percent_cons (ps : List Char) (s : List Char) :
    likeMatch ('%' :: ps) s = s.tails.any (fun t => likeMatch ps t) := by
  simp [likeMatch]

/-- The pattern `%` alone matches everything. -/
theorem likeMatch_percent_only (s : List Char) : likeMatch ['%'] s = true := by
  rw [likeMatch_percent_cons]
  rw [List.any_eq_true]
  refine ⟨[], ?_, rfl⟩
  rw [List.mem_tails]
  exact List.nil_suffix

/-- A wildcard-free literal pattern followed by `%` matches exactly the
strings it is a prefix of. -/
theorem likeMatch_lit_append_percent {lit : List Char}
    (hp : '%' ∉ lit) (hu : '_' ∉ lit) :
    ∀ s, likeMatch (lit ++ ['%']) s = lit.isPrefixOf s := by
  induction lit with
  | nil =>
    intro s
    rw [List.nil_append]
    rw [likeMatch_percent_only]
    cases s <;> rfl
  | cons c cs ih =>
    have hc1 : c ≠ '%' := fun h => hp (h ▸ List.mem_cons_self c cs)
    have hc2 : c ≠ '_' := fun h => hu (h ▸ List.mem_cons_self c cs)
    have hp' : '%' ∉ cs := fun h => hp (List.mem_cons_of_mem c h)
    have hu' : '_' ∉ cs := fun h => hu (List.mem_cons_of_mem c h)
    intro s
    cases s with
    | nil => simp [likeMatch, hc1, List.isPrefixOf]
    | cons d t =>
      simp only [List.cons_append, likeMatch, if_neg hc1, if_neg hc2, List.append_eq]
      rw [ih hp' hu' t]
      rfl

/-! ## Claim theorems -/

/-- C10: a list request whose text filter parameter is the empty string is
treated exactly as a request with no filter at all, for students (name
filter) and courses (title filter). -/
theorem C10_empty_filter_treated_as_absent :
    (∀ (db : DB) (skip limit : Nat) (ob : Option String),
      crud.get_students db skip limit (some "") ob =
        crud.get_students db skip limit none ob) ∧
    (∀ (db : DB) (skip limit : Nat) (ob : Option String),
      crud.get_courses db skip limit (some "") ob =
        crud.get_courses db skip limit none ob) :=
  ⟨fun _ _ _ _ => rfl, fun _ _ _ _ => rfl⟩

/-- C5: when the student id or the course id (or both) does not resolve,
enroll and unenroll both answer the single undifferentiated
`404 "Student or course not found"` and leave the state unchanged. -/
theorem C5_enroll_unenroll_not_found (db : DB) (sid cid : Nat)
    (h : findStudent db sid = none ∨ findCourse db cid = none) :
    api.enroll db sid cid = (db, .err 404 "Student or course not found") ∧
    api.unenroll db sid cid = (db, .err 404 "Student or course not found") := by
  have he : crud.enroll_student_in_course db sid cid = none := by
    unfold crud.enroll_student_in_course
    rcases h with h | h
    · rw [h]
    · rw [h]
      cases findStudent db sid <;> rfl
  have hu : crud.unenroll_student_from_course db sid cid = none := by
    unfold crud.unenroll_student_from_course
    rcases h with h | h
    · rw [h]
    · rw [h]
      cases findStudent db sid <;> rfl
  constructor
  · unfold api.enroll
    rw [he]
  · unfold api.unenroll
    rw [hu]

/-- C5 witness: enrolling student 1 in missing course 9 on a concrete
database answers 404 for both operations and keeps the state. -/
theorem C5_witness :
    (findStudent ⟨[⟨1, "Al", "a@x", 20⟩], [], []⟩ 1 = none ∨
      findCourse ⟨[⟨1, "Al", "a@x", 20⟩], [], []⟩ 9 = none) ∧
    api.enroll ⟨[⟨1, "Al", "a@x", 20⟩], [], []⟩ 1 9 =
      (⟨[⟨1, "Al", "a@x", 20⟩], [], []⟩, .err 404 "Student or course not found") :=
  ⟨by decide, (C5_enroll_unenroll_not_found ⟨[⟨1, "Al", "a@x", 20⟩], [], []⟩ 1 9 (by decide)).1⟩

/-- C6: creating a single student whose email is already stored yields the
conflict (`IntegrityError` → `409 "Email already exists"`) and the store
is unchanged. -/
theorem C6_duplicate_email_conflict (db : DB) (nextId : Nat) (data : StudentCreate)
    (h : ∃ s ∈ db.students, s.email = data.email) :
    crud.create_student db nextId data = .error "IntegrityError" ∧
    api.create_student db nextId data = (db, .err 409 "Email already exists") := by
  have ht : emailTaken db data.email = true := (emailTaken_iff db data.email).mpr h
  have hc : crud.create_student db nextId data = .error "IntegrityError" := by
    unfold crud.create_student
    simp [ht]
  refine ⟨hc, ?_⟩
  unfold api.create_student
  rw [hc]

/-- C6 witness: creating a second student with the stored email `a@x`
yields the conflict and leaves the store as it was. -/
theorem C6_witness :
    (∃ s ∈ (⟨[⟨1, "Al", "a@x", 20⟩], [], []⟩ : DB).students, s.email = "a@x") ∧
    api.create_student ⟨[⟨1, "Al", "a@x", 20⟩], [], []⟩ 2 ⟨"Bo", "a@x", 30⟩ =
      (⟨[⟨1, "Al", "a@x", 20⟩], [], []⟩, .err 409 "Email already exists") :=
  ⟨⟨⟨1, "Al", "a@x", 20⟩, by decide, rfl⟩,
    (C6_duplicate_email_conflict ⟨[⟨1, "Al", "a@x", 20⟩], [], []⟩ 2 ⟨"Bo", "a@x", 30⟩
      ⟨⟨1, "Al", "a@x", 20⟩, by decide, rfl⟩).2⟩

/-- C4: unenrolling an existing student from an existing course they are
not enrolled in changes no stored state and returns the student (hence
their current course list). -/
theorem C4_unenroll_not_enrolled_noop (db : DB) (sid cid : Nat)
    (st : StudentRow) (c : CourseRow)
    (hs : findStudent db sid = some st) (hc : findCourse db cid = some c)
    (hnot : (sid, cid) ∉ db.enrollments) :
    crud.unenroll_student_from_course db sid cid = some (db, st) ∧
    api.unenroll db sid cid = (db, .ok st) := by
  have hmem : ¬ cid ∈ studentCourseIds db sid :=
    fun hm => hnot ((mem_studentCourseIds db sid cid).mp hm)
  have h1 : crud.unenroll_student_from_course db sid cid = some (db, st) := by
    unfold crud.unenroll_student_from_course
    rw [hs, hc]
    simp [hmem]
  refine ⟨h1, ?_⟩
  unfold api.unenroll
  rw [h1]

/-- C4 witness: a concrete non-enrolled pair is a no-op. -/
theorem C4_witness :
    findStudent ⟨[⟨1, "Al", "a@x", 20⟩], [⟨7, "T", none, 3⟩], []⟩ 1 = some ⟨1, "Al", "a@x", 20⟩ ∧
    (1, 7) ∉ (⟨[⟨1, "Al", "a@x", 20⟩], [⟨7, "T", none, 3⟩], []⟩ : DB).enrollments ∧
    api.unenroll ⟨[⟨1, "Al", "a@x", 20⟩], [⟨7, "T", none, 3⟩], []⟩ 1 7 =
      (⟨[⟨1, "Al", "a@x", 20⟩], [⟨7, "T", none, 3⟩], []⟩, .ok ⟨1, "Al", "a@x", 20⟩) :=
  ⟨by decide, by decide,
    (C4_unenroll_not_enrolled_noop ⟨[⟨1, "Al", "a@x", 20⟩], [⟨7, "T", none, 3⟩], []⟩ 1 7
      ⟨1, "Al", "a@x", 20⟩ ⟨7, "T", none, 3⟩ (by decide) (by decide) (by decide)).2⟩

/-- C3: enrolling an existing (student, course) pair twice is idempotent:
both calls succeed returning that student, the second call changes
nothing, and afterwards exactly one association row for the pair exists
(given the unique-pair invariant on the input state). -/
theorem C3_enroll_twice_idempotent (db : DB) (sid cid : Nat)
    (st : StudentRow) (c : CourseRow)
    (hs : findStudent db sid = some st) (hc : findCourse db cid = some c)
    (hinv : db.enrollments.count (sid, cid) ≤ 1) :
    ∃ db1, crud.enroll_student_in_course db sid cid = some (db1, st) ∧
      crud.enroll_student_in_course db1 sid cid = some (db1, st) ∧
      db1.enrollments.count (sid, cid) = 1 := by
  by_cases hmem : (sid, cid) ∈ db.enrollments
  · have hin : cid ∈ studentCourseIds db sid := (mem_studentCourseIds db sid cid).mpr hmem
    have h1 : crud.enroll_student_in_course db sid cid = some (db, st) := by
      unfold crud.enroll_student_in_course
      rw [hs, hc]
      simp [hin]
    exact ⟨db, h1, h1, Nat.le_antisymm hinv (List.count_pos_iff.mpr hmem)⟩
  · have hin : ¬ cid ∈ studentCourseIds db sid :=
      fun hm => hmem ((mem_studentCourseIds db sid cid).mp hm)
    refine ⟨{ db with enrollments := db.enrollments ++ [(sid, cid)] }, ?_, ?_, ?_⟩
    · unfold crud.enroll_student_in_course
      rw [hs, hc]
      simp [hin]
    · have hs1 : findStudent { db with enrollments := db.enrollments ++ [(sid, cid)] } sid =
        some st := hs
      have hc1 : findCourse { db with enrollments := db.enrollments ++ [(sid, cid)] } cid =
        some c := hc
      have hin1 : cid ∈ studentCourseIds
          { db with enrollments := db.enrollments ++ [(sid, cid)] } sid := by
        refine (mem_studentCourseIds _ sid cid).mpr ?_
        exact List.mem_append_right _ (List.mem_singleton.mpr rfl)
      unfold crud.enroll_student_in_course
      rw [hs1, hc1]
      simp [hin1]
    · have h0 : db.enrollments.count (sid, cid) = 0 := List.count_eq_zero.mpr hmem
      simp [List.count_append, h0]

/-- C3 witness: enrolling a concrete pair twice from an empty association
table yields one row and both calls succeed. -/
theorem C3_witness :
    findStudent ⟨[⟨1, "Al", "a@x", 20⟩], [⟨7, "T", none, 3⟩], []⟩ 1 = some ⟨1, "Al", "a@x", 20⟩ ∧
    (⟨[⟨1, "Al", "a@x", 20⟩], [⟨7, "T", none, 3⟩], []⟩ : DB).enrollments.count (1, 7) ≤ 1 ∧
    ∃ db1, crud.enroll_student_in_course ⟨[⟨1, "Al", "a@x", 20⟩], [⟨7, "T", none, 3⟩], []⟩ 1 7 =
        some (db1, ⟨1, "Al", "a@x", 20⟩) ∧
      crud.enroll_student_in_course db1 1 7 = some (db1, ⟨1, "Al", "a@x", 20⟩) ∧
      db1.enrollments.count (1, 7) = 1 :=
  ⟨by decide, by decide,
    C3_enroll_twice_idempotent ⟨[⟨1, "Al", "a@x", 20⟩], [⟨7, "T", none, 3⟩], []⟩ 1 7
      ⟨1, "Al", "a@x", 20⟩ ⟨7, "T", none, 3⟩ (by decide) (by decide) (by decide)⟩

/-- C7: listing returns at most `limit` records, skipping the first `skip`
of the selected rows; `limit > 100` or `skip < 0` is rejected as a
validation error whose outcome does not depend on the stored data
(rejected before any storage access). Stated for students and courses. -/
theorem C7_pagination_and_validation (db db2 : DB) (skip limit : Int)
    (f order_by : Option String) :
    ((100 < limit ∨ skip < 0) →
      api.list_students db skip limit f order_by = .err 422 "validation error" ∧
      api.list_courses db skip limit f order_by = .err 422 "validation error" ∧
      api.list_students db skip limit f order_by = api.list_students db2 skip limit f order_by ∧
      api.list_courses db skip limit f order_by = api.list_courses db2 skip limit f order_by) ∧
    (∀ rows, api.list_students db skip limit f order_by = .ok rows →
      rows.length ≤ limit.toNat ∧
      ∀ i : Nat, rows[i]? =
        if i < limit.toNat then (crud.selectedStudents db f order_by)[skip.toNat + i]?
        else none) ∧
    (∀ rows, api.list_courses db skip limit f order_by = .ok rows →
      rows.length ≤ limit.toNat ∧
      ∀ i : Nat, rows[i]? =
        if i < limit.toNat then (crud.selectedCourses db f order_by)[skip.toNat + i]?
        else none) := by
  refine ⟨?_, ?_, ?_⟩
  · intro h
    have hcond : skip < 0 ∨ limit ≤ 0 ∨ 100 < limit := by
      rcases h with h | h
      · exact Or.inr (Or.inr h)
      · exact Or.inl h
    unfold api.list_students api.list_courses
    simp only [if_pos hcond]
    refine ⟨?_, ?_, ?_, ?_⟩ <;> trivial
  · intro rows hok
    unfold api.list_students at hok
    split at hok
    · exact absurd hok (by simp)
    · split at hok
      · exact absurd hok (by simp)
      · have hrows : rows = crud.get_students db skip.toNat limit.toNat f order_by := by
          injection hok with h
          exact h.symm
        subst hrows
        unfold crud.get_students
        refine ⟨List.length_take_le _ _, ?_⟩
        intro i
        rw [List.getElem?_take]
        by_cases hi : i < limit.toNat
        · rw [if_pos hi, if_pos hi, List.getElem?_drop]
        · rw [if_neg hi, if_neg hi]
  · intro rows hok
    unfold api.list_courses at hok
    split at hok
    · exact absurd hok (by simp)
    · split at hok
      · exact absurd hok (by simp)
      · have hrows : rows = crud.get_courses db skip.toNat limit.toNat f order_by := by
          injection hok with h
          exact h.symm
        subst hrows
        unfold crud.get_courses
        refine ⟨List.length_take_le _ _, ?_⟩
        intro i
        rw [List.getElem?_take]
        by_cases hi : i < limit.toNat
        · rw [if_pos hi, if_pos hi, List.getElem?_drop]
        · rw [if_neg hi, if_neg hi]

/-- C7 witness: `limit = 101` is rejected on a concrete database, and a
valid request on three students with `limit = 2, skip = 1` returns the
rows at offsets 1 and 2. -/
theorem C7_witness :
    ((100 : Int) < 101 ∨ (0 : Int) < 0) ∧
    api.list_students ⟨[⟨1, "Al", "a@x", 20⟩], [], []⟩ 0 101 none none =
      .err 422 "validation error" ∧
    (api.list_students ⟨[⟨1, "Al", "a@x", 20⟩, ⟨2, "Bo", "b@x", 21⟩, ⟨3, "Cy", "c@x", 22⟩], [], []⟩
        1 2 none none =
      .ok [⟨2, "Bo", "b@x", 21⟩, ⟨3, "Cy", "c@x", 22⟩] ∧
      [(⟨2, "Bo", "b@x", 21⟩ : StudentRow), ⟨3, "Cy", "c@x", 22⟩].length ≤ (2 : Int).toNat) :=
  ⟨by decide,
    (C7_pagination_and_validation ⟨[⟨1, "Al", "a@x", 20⟩], [], []⟩ ⟨[], [], []⟩ 0 101
      none none).1 (by decide) |>.1,
    by decide,
    ((C7_pagination_and_validation
        ⟨[⟨1, "Al", "a@x", 20⟩, ⟨2, "Bo", "b@x", 21⟩, ⟨3, "Cy", "c@x", 22⟩], [], []⟩
        ⟨[], [], []⟩ 1 2 none none).2.1
      [⟨2, "Bo", "b@x", 21⟩, ⟨3, "Cy", "c@x", 22⟩] (by decide)).1⟩

/-- The `LIKE`-based filter agrees with the plain case-insensitive
substring test whenever the lowercased filter contains no `%` and no `_`
wildcard. -/
theorem nameFilterMatches_eq_substr {f : String} (v : String)
    (hp : '%' ∉ lowerChars f) (hu : '_' ∉ lowerChars f) :
    nameFilterMatches f v = specSubstrMatches f v := by
  unfold nameFilterMatches specSubstrMatches
  rw [likeMatch_percent_cons]
  exact anyCongr (fun t => likeMatch_lit_append_percent hp hu t)

/-- C8 counterexample: the claim's "for every filter string including ones
containing characters such as '%' and '_'" fails. With the one stored
student named `abc`, the filter `a_c` selects that student (the SQL
`LIKE` treats `_` as a one-character wildcard) although `a_c` is not a
substring of `abc`. -/
theorem C8_counterexample :
    crud.selectedStudents ⟨[⟨1, "abc", "a@x", 20⟩], [], []⟩ (some "a_c") none =
      [⟨1, "abc", "a@x", 20⟩] ∧
    specSubstrMatches "a_c" "abc" = false := by
  constructor
  · rfl
  · decide

/-- C8 (amended): for every non-empty filter string whose lowercased form
contains neither `%` nor `_`, the filter behaves as a case-insensitive
substring match on the filtered text field; filters containing `%` or `_`
are instead interpreted with SQL `LIKE` wildcard semantics
(`nameFilterMatches`). -/
theorem C8_filter_substring_without_wildcards :
    (∀ f v : String, '%' ∉ lowerChars f → '_' ∉ lowerChars f →
      nameFilterMatches f v = specSubstrMatches f v) ∧
    (∀ (db : DB) (f : String) (s : StudentRow),
      f.isEmpty = false → '%' ∉ lowerChars f → '_' ∉ lowerChars f →
      (s ∈ crud.selectedStudents db (some f) none ↔
        s ∈ db.students ∧ specSubstrMatches f s.name = true)) ∧
    (∀ (db : DB) (f : String) (c : CourseRow),
      f.isEmpty = false → '%' ∉ lowerChars f → '_' ∉ lowerChars f →
      (c ∈ crud.selectedCourses db (some f) none ↔
        c ∈ db.courses ∧ specSubstrMatches f c.title = true)) := by
  refine ⟨fun f v hp hu => nameFilterMatches_eq_substr v hp hu, ?_, ?_⟩
  · intro db f s hne hp hu
    unfold crud.selectedStudents
    simp only [hne, Bool.false_eq_true, if_false, reduceCtorEq, if_neg,
      List.mem_filter, nameFilterMatches_eq_substr s.name hp hu]
  · intro db f c hne hp hu
    unfold crud.selectedCourses
    simp only [hne, Bool.false_eq_true, if_false, reduceCtorEq, if_neg,
      List.mem_filter, nameFilterMatches_eq_substr c.title hp hu]

/-- C8 witness: the filter `B` (no wildcards) selects the student named
`xaBy` — a case-insensitive substring hit. -/
theorem C8_witness :
    ("B" : String).isEmpty = false ∧ '%' ∉ lowerChars "B" ∧ '_' ∉ lowerChars "B" ∧
    ((⟨1, "xaBy", "a@x", 20⟩ : StudentRow) ∈
        crud.selectedStudents ⟨[⟨1, "xaBy", "a@x", 20⟩], [], []⟩ (some "B") none ↔
      (⟨1, "xaBy", "a@x", 20⟩ : StudentRow) ∈
          (⟨[⟨1, "xaBy", "a@x", 20⟩], [], []⟩ : DB).students ∧
        specSubstrMatches "B" "xaBy" = true) :=
  ⟨by decide, by decide, by decide,
    C8_filter_substring_without_wildcards.2.1 ⟨[⟨1, "xaBy", "a@x", 20⟩], [], []⟩ "B"
      ⟨1, "xaBy", "a@x", 20⟩ (by decide) (by decide) (by decide)⟩

/-- C9 counterexample: a caller who provides the optional description field
with value null does NOT have it applied. Updating course 1 (stored
description `some "x"`) with the payload `{description: null}` (outer
`some`, inner `none`) leaves the description at `some "x"` instead of
clearing it, because the code only applies a field when `data.field is
not None`. -/
theorem C9_counterexample :
    crud.update_course ⟨[], [⟨1, "T1", some "x", 3⟩], []⟩ 1
        ⟨none, some none, none⟩ =
      some (⟨[], [⟨1, "T1", some "x", 3⟩], []⟩, ⟨1, "T1", some "x", 3⟩) ∧
    (some "x" : Option String) ≠ none :=
  ⟨by decide, by decide⟩

/-- C9 (amended): on an existing course (resp. student, when the resulting
email collides with no other student), exactly the fields provided with a
non-null value are overwritten; every field omitted or provided as null
keeps its stored value — in particular a provided `description: null` is
ignored. Other rows and the other tables are untouched. -/
theorem C9_update_applies_nonnull_provided_fields :
    (∀ (db : DB) (cid : Nat) (data : CourseUpdate) (course : CourseRow),
      findCourse db cid = some course →
      ∃ db' c', crud.update_course db cid data = some (db', c') ∧
        c'.id = course.id ∧
        c'.title = (data.title.join).getD course.title ∧
        c'.description = (data.description.join).elim course.description some ∧
        c'.credits = (data.credits.join).getD course.credits ∧
        db'.students = db.students ∧
        db'.enrollments = db.enrollments ∧
        db'.courses = db.courses.map (fun c => if c.id == cid then c' else c)) ∧
    (∀ (db : DB) (sid : Nat) (data : StudentUpdate) (student : StudentRow),
      findStudent db sid = some student →
      (∀ o ∈ db.students, o.id ≠ sid →
        o.email ≠ (data.email.join).getD student.email) →
      ∃ db' s', crud.update_student db sid data = .ok (some (db', s')) ∧
        s'.id = student.id ∧
        s'.name = (data.name.join).getD student.name ∧
        s'.email = (data.email.join).getD student.email ∧
        s'.age = (data.age.join).getD student.age ∧
        db'.courses = db.courses ∧
        db'.enrollments = db.enrollments ∧
        db'.students = db.students.map (fun s => if s.id == sid then s' else s)) := by
  constructor
  · intro db cid data course hfind
    unfold crud.update_course
    rw [hfind]
    cases ht : data.title.join <;> cases hd : data.description.join <;>
      cases hc : data.credits.join <;>
      exact ⟨_, _, rfl, rfl, rfl, rfl, rfl, rfl, rfl, rfl⟩
  · intro db sid data student hfind hnoc
    unfold crud.update_student
    rw [hfind]
    cases he : data.email.join with
    | none =>
      rw [he] at hnoc
      simp only [Option.getD_none] at hnoc
      have hany : db.students.any
          (fun o => o.id != sid && o.email == student.email) = false := by
        rw [List.any_eq_false]
        intro o ho
        by_cases hid : o.id = sid
        · simp [hid]
        · simp [hid, hnoc o ho hid]
      cases hn : data.name.join <;> cases ha : data.age.join <;>
        · simp only [hany, Bool.false_eq_true, if_false]
          exact ⟨_, _, rfl, rfl, rfl, rfl, rfl, rfl, rfl, rfl⟩
    | some e =>
      rw [he] at hnoc
      simp only [Option.getD_some] at hnoc
      have hany : db.students.any
          (fun o => o.id != sid && o.email == e) = false := by
        rw [List.any_eq_false]
        intro o ho
        by_cases hid : o.id = sid
        · simp [hid]
        · simp [hid, hnoc o ho hid]
      cases hn : data.name.join <;> cases ha : data.age.join <;>
        · simp only [hany, Bool.false_eq_true, if_false]
          exact ⟨_, _, rfl, rfl, rfl, rfl, rfl, rfl, rfl, rfl⟩

/-- C9 witness: updating course 1 with `{title: "New", description: null}`
applies the title, ignores the null description, and keeps credits. -/
theorem C9_witness :
    findCourse ⟨[], [⟨1, "T1", some "x", 3⟩], []⟩ 1 = some ⟨1, "T1", some "x", 3⟩ ∧
    ∃ db' c', crud.update_course ⟨[], [⟨1, "T1", some "x", 3⟩], []⟩ 1
        ⟨some (some "New"), some none, none⟩ = some (db', c') ∧
      c'.id = (⟨1, "T1", some "x", 3⟩ : CourseRow).id ∧
      c'.title = ((some (some "New") : Option (Option String)).join).getD "T1" ∧
      c'.description = ((some none : Option (Option String)).join).elim (some "x") some ∧
      c'.credits = ((none : Option (Option Int)).join).getD 3 ∧
      db'.students = ([] : List StudentRow) ∧
      db'.enrollments = ([] : List (Nat × Nat)) ∧
      db'.courses = [⟨1, "T1", some "x", 3⟩].map
        (fun c => if c.id == 1 then c' else c) :=
  ⟨by decide,
    C9_update_applies_nonnull_provided_fields.1 ⟨[], [⟨1, "T1", some "x", 3⟩], []⟩ 1
      ⟨some (some "New"), some none, none⟩ ⟨1, "T1", some "x", 3⟩ (by decide)⟩

/-- The emails of the created rows are the emails of the accepted
candidates, in order. -/
theorem toCreate_map_email (db : DB) (nextId : Nat) (ss : List StudentCreate) :
    (crud.toCreate db nextId ss).map (fun r => r.email) =
      (crud.creatable db ss).map (fun t => t.email) := by
  unfold crud.toCreate
  rw [List.map_map]
  have hcomp : ((fun r : StudentRow => r.email) ∘ (fun p : Nat × StudentCreate =>
      ({ id := nextId + p.1, name := p.2.name, email := p.2.email, age := p.2.age } :
        StudentRow))) = (fun t : StudentCreate => t.email) ∘ Prod.snd := rfl
  rw [hcomp, ← List.map_map, List.enum_map_snd]

/-- Membership in the accepted candidates' emails, unfolded. -/
theorem mem_creatable_map (db : DB) (ss : List StudentCreate) (e : String) :
    e ∈ (crud.creatable db ss).map (fun t => t.email) ↔
      (∃ t ∈ ss, t.email = e) ∧
        e ∉ crud.existingEmails db ss ∧ e ∉ crud.dup_within ss := by
  unfold crud.creatable
  rw [List.mem_map]
  constructor
  · rintro ⟨t, htf, rfl⟩
    rw [List.mem_filter, decide_eq_true_eq] at htf
    exact ⟨⟨t, htf.1, rfl⟩, htf.2.1, htf.2.2⟩
  · rintro ⟨⟨t, hts, rfl⟩, h1, h2⟩
    refine ⟨t, ?_, rfl⟩
    rw [List.mem_filter, decide_eq_true_eq]
    exact ⟨hts, h1, h2⟩

/-- C1: a candidate of a bulk create is created exactly when its email
neither repeats within the payload nor is already stored; and bulk
creating `[A(existing email), B(fresh email)]` creates exactly the one
row for B and reports the single conflict message naming A's email. -/
theorem C1_bulk_create_exactly_nonconflicting :
    (∀ (db : DB) (nextId : Nat) (ss : List StudentCreate) (s : StudentCreate),
      s ∈ ss →
      (s.email ∈ (crud.bulk_create_students db nextId ss).2.1.map (fun r => r.email) ↔
        (crud.payloadEmails ss).count s.email = 1 ∧
          ¬ ∃ r ∈ db.students, r.email = s.email)) ∧
    (∀ (db : DB) (nextId : Nat) (A B : StudentCreate),
      emailTaken db A.email = true → emailTaken db B.email = false →
      A.email ≠ B.email →
      (crud.bulk_create_students db nextId [A, B]).2.1 =
        [⟨nextId, B.name, B.email, B.age⟩] ∧
      (crud.bulk_create_students db nextId [A, B]).2.2 =
        ["Emails already exist: " ++ A.email]) := by
  constructor
  · intro db nextId ss s hs
    have hemail : s.email ∈ crud.payloadEmails ss := List.mem_map.mpr ⟨s, hs, rfl⟩
    have hcnt1 : 1 ≤ (crud.payloadEmails ss).count s.email :=
      List.count_pos_iff.mpr hemail
    have hLHS : (crud.bulk_create_students db nextId ss).2.1 =
        crud.toCreate db nextId ss := rfl
    rw [hLHS, toCreate_map_email, mem_creatable_map]
    constructor
    · rintro ⟨-, hnotex, hnotdup⟩
      constructor
      · have hle : ¬ 1 < (crud.payloadEmails ss).count s.email := by
          intro hlt
          refine hnotdup ?_
          unfold crud.dup_within
          rw [List.mem_filter, decide_eq_true_eq]
          exact ⟨hemail, hlt⟩
        omega
      · rintro ⟨r, hr, hre⟩
        refine hnotex ?_
        unfold crud.existingEmails
        rw [List.mem_filter, decide_eq_true_eq]
        exact ⟨List.mem_map.mpr ⟨r, hr, hre⟩, hemail⟩
    · rintro ⟨hcount, hnostore⟩
      refine ⟨⟨s, hs, rfl⟩, ?_, ?_⟩
      · intro hin
        unfold crud.existingEmails at hin
        rw [List.mem_filter, decide_eq_true_eq] at hin
        obtain ⟨r, hr, hre⟩ := List.mem_map.mp hin.1
        exact hnostore ⟨r, hr, hre⟩
      · intro hin
        unfold crud.dup_within at hin
        rw [List.mem_filter, decide_eq_true_eq] at hin
        omega
  · intro db nextId A B hA hB hAB
    have hdup : crud.dup_within [A, B] = [] := by
      unfold crud.dup_within crud.payloadEmails
      simp [List.count_cons, beq_iff_eq, hAB, Ne.symm hAB]
    have hexall : ∀ x ∈ crud.existingEmails db [A, B], x = A.email := by
      intro x hx
      unfold crud.existingEmails at hx
      rw [List.mem_filter, decide_eq_true_eq] at hx
      obtain ⟨hxdb, hxpay⟩ := hx
      unfold crud.payloadEmails at hxpay
      rcases List.mem_map.mp hxpay with ⟨t, ht, hte⟩
      rcases List.mem_cons.mp ht with ht | ht
      · subst ht; exact hte.symm
      · rw [List.mem_singleton] at ht
        exfalso
        obtain ⟨r, hr, hre⟩ := List.mem_map.mp hxdb
        have hBt : emailTaken db B.email = true :=
          (emailTaken_iff db B.email).mpr ⟨r, hr, by rw [hre, ← hte, ht]⟩
        rw [hB] at hBt
        exact Bool.false_ne_true hBt
    have hAmem : A.email ∈ crud.existingEmails db [A, B] := by
      obtain ⟨r, hr, hre⟩ := (emailTaken_iff db A.email).mp hA
      unfold crud.existingEmails
      rw [List.mem_filter, decide_eq_true_eq]
      refine ⟨List.mem_map.mpr ⟨r, hr, hre⟩, ?_⟩
      unfold crud.payloadEmails
      exact List.mem_map.mpr ⟨A, List.mem_cons_self A [B], rfl⟩
    have hne : crud.existingEmails db [A, B] ≠ [] := by
      intro h
      rw [h] at hAmem
      exact List.not_mem_nil A.email hAmem
    have hsorted : sortedSet (crud.existingEmails db [A, B]) = [A.email] :=
      sortedSet_const hne hexall
    have hBne : B.email ∉ crud.existingEmails db [A, B] := by
      intro h
      exact hAB ((hexall B.email h).symm)
    have hcreat : crud.creatable db [A, B] = [B] := by
      unfold crud.creatable
      have hpA : decide (A.email ∉ crud.existingEmails db [A, B] ∧
          A.email ∉ crud.dup_within [A, B]) = false :=
        decide_eq_false (fun h => h.1 hAmem)
      have hpB : decide (B.email ∉ crud.existingEmails db [A, B] ∧
          B.email ∉ crud.dup_within [A, B]) = true :=
        decide_eq_true ⟨hBne, by rw [hdup]; exact List.not_mem_nil B.email⟩
      rw [List.filter_cons, List.filter_cons, List.filter_nil, hpA, hpB]
      rfl
    have htc : crud.toCreate db nextId [A, B] = [⟨nextId, B.name, B.email, B.age⟩] := by
      unfold crud.toCreate
      rw [hcreat]
      rfl
    have hie : (crud.existingEmails db [A, B]).isEmpty = false := by
      cases h : (crud.existingEmails db [A, B]).isEmpty with
      | true => exact absurd (List.isEmpty_iff.mp h) hne
      | false => rfl
    have herr : crud.bulkErrors db [A, B] = ["Emails already exist: " ++ A.email] := by
      unfold crud.bulkErrors
      rw [hdup, hie, hsorted, intercalate_singleton]
      rfl
    exact ⟨htc, herr⟩

/-- C1 witness: bulk-creating `[Al(a@x already stored), Bo(b@x fresh)]`
creates exactly Bo's row and reports the conflict message naming `a@x`;
and the acceptance rule instance for Bo holds. -/
theorem C1_witness :
    ((⟨"Bo", "b@x", 21⟩ : StudentCreate) ∈
        [(⟨"Al", "a@x", 20⟩ : StudentCreate), ⟨"Bo", "b@x", 21⟩] ∧
      ((⟨"Bo", "b@x", 21⟩ : StudentCreate).email ∈
          (crud.bulk_create_students ⟨[⟨1, "Ex", "a@x", 30⟩], [], []⟩ 2
            [⟨"Al", "a@x", 20⟩, ⟨"Bo", "b@x", 21⟩]).2.1.map (fun r => r.email) ↔
        (crud.payloadEmails [(⟨"Al", "a@x", 20⟩ : StudentCreate),
            ⟨"Bo", "b@x", 21⟩]).count "b@x" = 1 ∧
          ¬ ∃ r ∈ (⟨[⟨1, "Ex", "a@x", 30⟩], [], []⟩ : DB).students, r.email = "b@x")) ∧
    emailTaken ⟨[⟨1, "Ex", "a@x", 30⟩], [], []⟩ "a@x" = true ∧
    (crud.bulk_create_students ⟨[⟨1, "Ex", "a@x", 30⟩], [], []⟩ 2
        [⟨"Al", "a@x", 20⟩, ⟨"Bo", "b@x", 21⟩]).2.1 = [⟨2, "Bo", "b@x", 21⟩] ∧
    (crud.bulk_create_students ⟨[⟨1, "Ex", "a@x", 30⟩], [], []⟩ 2
        [⟨"Al", "a@x", 20⟩, ⟨"Bo", "b@x", 21⟩]).2.2 = ["Emails already exist: " ++ "a@x"] :=
  ⟨⟨by decide,
      C1_bulk_create_exactly_nonconflicting.1 ⟨[⟨1, "Ex", "a@x", 30⟩], [], []⟩ 2
        [⟨"Al", "a@x", 20⟩, ⟨"Bo", "b@x", 21⟩] ⟨"Bo", "b@x", 21⟩ (by decide)⟩,
    by decide,
    (C1_bulk_create_exactly_nonconflicting.2 ⟨[⟨1, "Ex", "a@x", 30⟩], [], []⟩ 2
      ⟨"Al", "a@x", 20⟩ ⟨"Bo", "b@x", 21⟩ (by decide) (by decide) (by decide)).1,
    (C1_bulk_create_exactly_nonconflicting.2 ⟨[⟨1, "Ex", "a@x", 30⟩], [], []⟩ 2
      ⟨"Al", "a@x", 20⟩ ⟨"Bo", "b@x", 21⟩ (by decide) (by decide) (by decide)).2⟩

/-- C2: whenever a bulk create accepts zero records but recorded at least
one error, the endpoint answers with the conflict carrying those errors
instead of an empty success; in particular `[A(email=x), B(email=x)]`
with `x` not stored creates zero records and yields the single
intra-batch-duplicate error naming `x`. -/
theorem C2_bulk_zero_created_conflict :
    (∀ (db : DB) (nextId : Nat) (ss : List StudentCreate),
      (crud.bulk_create_students db nextId ss).2.1 = [] →
      (crud.bulk_create_students db nextId ss).2.2 ≠ [] →
      api.bulk_create_students db nextId ss =
        ((crud.bulk_create_students db nextId ss).1,
          .conflict (crud.bulk_create_students db nextId ss).2.2)) ∧
    (∀ (db : DB) (nextId : Nat) (A B : StudentCreate),
      A.email = B.email → emailTaken db A.email = false →
      (crud.bulk_create_students db nextId [A, B]).2.1 = [] ∧
      (crud.bulk_create_students db nextId [A, B]).2.2 =
        ["Duplicate emails in payload: " ++ A.email] ∧
      api.bulk_create_students db nextId [A, B] =
        (db, .conflict ["Duplicate emails in payload: " ++ A.email])) := by
  have hgen : ∀ (db : DB) (nextId : Nat) (ss : List StudentCreate),
      (crud.bulk_create_students db nextId ss).2.1 = [] →
      (crud.bulk_create_students db nextId ss).2.2 ≠ [] →
      api.bulk_create_students db nextId ss =
        ((crud.bulk_create_students db nextId ss).1,
          .conflict (crud.bulk_create_students db nextId ss).2.2) := by
    intro db nextId ss h1 h2
    have he : (crud.bulk_create_students db nextId ss).2.2.isEmpty = false := by
      cases h : (crud.bulk_create_students db nextId ss).2.2.isEmpty with
      | true => exact absurd (List.isEmpty_iff.mp h) h2
      | false => rfl
    simp only [api.bulk_create_students]
    rw [h1, he]
    rfl
  refine ⟨hgen, ?_⟩
  intro db nextId A B hx hB
  have hpay : crud.payloadEmails [A, B] = [A.email, A.email] := by
    unfold crud.payloadEmails
    rw [List.map_cons, List.map_cons, List.map_nil, ← hx]
  have hdup : crud.dup_within [A, B] = [A.email, A.email] := by
    unfold crud.dup_within
    rw [hpay]
    simp [List.count_cons]
  have hex : crud.existingEmails db [A, B] = [] := by
    unfold crud.existingEmails
    rw [List.filter_eq_nil_iff]
    intro x hxdb
    rw [decide_eq_true_eq]
    intro hxpay
    rw [hpay] at hxpay
    have hxA : x = A.email := by
      rcases List.mem_cons.mp hxpay with h | h
      · exact h
      · exact List.mem_singleton.mp h
    obtain ⟨r, hr, hre⟩ := List.mem_map.mp hxdb
    have hAt : emailTaken db A.email = true :=
      (emailTaken_iff db A.email).mpr ⟨r, hr, by rw [hre, hxA]⟩
    rw [hB] at hAt
    exact Bool.false_ne_true hAt
  have hAdup : A.email ∈ crud.dup_within [A, B] := by
    rw [hdup]
    exact List.mem_cons_self A.email [A.email]
  have hBdup : B.email ∈ crud.dup_within [A, B] := by
    rw [← hx]
    exact hAdup
  have hcreat : crud.creatable db [A, B] = [] := by
    unfold crud.creatable
    rw [List.filter_eq_nil_iff]
    intro t ht
    rw [decide_eq_true_eq]
    intro hcond
    rcases List.mem_cons.mp ht with h | h
    · subst h; exact hcond.2 hAdup
    · rw [List.mem_singleton] at h
      subst h
      exact hcond.2 hBdup
  have htc : crud.toCreate db nextId [A, B] = [] := by
    unfold crud.toCreate
    rw [hcreat]
    rfl
  have hsorted : sortedSet (crud.dup_within [A, B]) = [A.email] := by
    refine sortedSet_const ?_ ?_
    · rw [hdup]
      exact List.cons_ne_nil A.email [A.email]
    · intro y hy
      rw [hdup] at hy
      rcases List.mem_cons.mp hy with h | h
      · exact h
      · exact List.mem_singleton.mp h
  have herr : crud.bulkErrors db [A, B] = ["Duplicate emails in payload: " ++ A.email] := by
    unfold crud.bulkErrors
    rw [hsorted, intercalate_singleton, hdup, hex]
    rfl
  have h21 : (crud.bulk_create_students db nextId [A, B]).2.1 = [] := htc
  have h22 : (crud.bulk_create_students db nextId [A, B]).2.2 =
      ["Duplicate emails in payload: " ++ A.email] := herr
  refine ⟨h21, h22, ?_⟩
  have hapi := hgen db nextId [A, B] h21 (by rw [h22]; exact List.cons_ne_nil _ [])
  rw [hapi, h22]
  have hfst : (crud.bulk_create_students db nextId [A, B]).1 = db := by
    have : (crud.bulk_create_students db nextId [A, B]).1 =
        { db with students := db.students ++ crud.toCreate db nextId [A, B] } := rfl
    rw [this, htc, List.append_nil]
  rw [hfst]

/-- C2 witness: bulk-creating two candidates that share the fresh email
`a@x` creates nothing and answers the conflict with the duplicate
message. -/
theorem C2_witness :
    (⟨"Al", "a@x", 20⟩ : StudentCreate).email = (⟨"Bo", "a@x", 21⟩ : StudentCreate).email ∧
    emailTaken ⟨[], [], []⟩ "a@x" = false ∧
    (crud.bulk_create_students ⟨[], [], []⟩ 1
      [⟨"Al", "a@x", 20⟩, ⟨"Bo", "a@x", 21⟩]).2.1 = [] ∧
    api.bulk_create_students ⟨[], [], []⟩ 1 [⟨"Al", "a@x", 20⟩, ⟨"Bo", "a@x", 21⟩] =
      (⟨[], [], []⟩, .conflict ["Duplicate emails in payload: " ++ "a@x"]) :=
  ⟨by decide, by decide,
    (C2_bulk_zero_created_conflict.2 ⟨[], [], []⟩ 1 ⟨"Al", "a@x", 20⟩ ⟨"Bo", "a@x", 21⟩
      (by decide) (by decide)).1,
    (C2_bulk_zero_created_conflict.2 ⟨[], [], []⟩ 1 ⟨"Al", "a@x", 20⟩ ⟨"Bo", "a@x", 21⟩
      (by decide) (by decide)).2.2⟩
